import Mathlib

set_option maxRecDepth 100000

/-
Verification of the Fuji acquisition engine (src/acquisition/abstract.py and
src/acquisition/snapshot.py) against its specification.

The Python code is shallowly embedded: pure computations become Lean
functions, external processes and the filesystem are read from an explicit
environment record, Python exceptions become an `Except` error channel, and
`datetime.now()` values are opaque `Nat` tokens supplied by the environment.
All recursive definitions are structural (fuel-based where the source loops),
so every embedded function evaluates inside the kernel.

hashlib digest objects are modelled by the byte stream fed to them so far
(`update` appends, `hexdigest` applies the digest function to the accumulated
stream); the MD5 / SHA-1 / SHA-256 digest functions themselves are implemented
here in full and serve as the independent reference implementations.
-/

/- ===== Python string primitives used by the sources ===== -/

/-- ASCII whitespace as used by Python `str.strip` / `str.split` / `\s`
(unicode whitespace beyond ASCII is out of scope of the model). -/
def pyIsSpace (c : Char) : Bool :=
  c == ' ' || c == '\t' || c == '\n' || c == '\r' || c == '\x0b' || c == '\x0c'

/-- Python `str.strip()`. -/
def pyStrip (s : String) : String :=
  String.mk (((s.data.dropWhile pyIsSpace).reverse.dropWhile pyIsSpace).reverse)

/-- Split a character list at every occurrence of `sep` (keeping empty parts),
as Python `str.split(sep)` does for a one-character separator. -/
def splitOnChar (sep : Char) : List Char → List (List Char)
  | [] => [[]]
  | a :: rest =>
    match splitOnChar sep rest with
    | [] => [[]]
    | h :: t => if a == sep then [] :: h :: t else (a :: h) :: t

/-- Python `str.split(sep)` for a one-character separator. -/
def pySplitChar (sep : Char) (s : String) : List String :=
  (splitOnChar sep s.data).map String.mk

/-- Python `str.splitlines()` for LF-separated text: `""` gives `[]`, and a
trailing newline does not produce a trailing empty line. -/
def pySplitlines (s : String) : List String :=
  if s.data.isEmpty then []
  else if s.data.getLast? == some '\n' then
    ((splitOnChar '\n' s.data).dropLast).map String.mk
  else
    (splitOnChar '\n' s.data).map String.mk

/-- Worker for `pySplitWs`; the fuel argument only certifies termination and
is always at least the length of the list. -/
def wsTokensAux : Nat → List Char → List (List Char)
  | 0, _ => []
  | f + 1, cs =>
    match cs with
    | [] => []
    | a :: rest =>
      if pyIsSpace a then wsTokensAux f rest
      else (a :: rest.takeWhile (fun c => !pyIsSpace c)) ::
        wsTokensAux f (rest.dropWhile (fun c => !pyIsSpace c))

/-- Python `str.split()` with no argument: maximal whitespace runs separate
tokens and no empty tokens are produced. -/
def pySplitWs (s : String) : List String :=
  (wsTokensAux (s.data.length + 1) s.data).map String.mk

/-- Split off everything up to and including the first maximal whitespace run;
`none` when the list has no whitespace at all. -/
def splitWsOnce : List Char → Option (List Char × List Char)
  | [] => none
  | a :: rest =>
    if pyIsSpace a then some ([], rest.dropWhile pyIsSpace)
    else
      match splitWsOnce rest with
      | none => none
      | some (pre, post) => some (a :: pre, post)

/-- Python `re.split(r'\s+', s, maxsplit=2)`: at most two splits at maximal
whitespace runs; a leading run yields a leading empty field. -/
def reSplitWs2 (s : String) : List String :=
  match splitWsOnce s.data with
  | none => [s]
  | some (a, r1) =>
    match splitWsOnce r1 with
    | none => [String.mk a, String.mk r1]
    | some (b, r2) => [String.mk a, String.mk b, String.mk r2]

/-- Does `pat` occur at the head of the list? -/
def leadsWith : List Char → List Char → Bool
  | [], _ => true
  | _ :: _, [] => false
  | p :: ps, c :: cs => p == c && leadsWith ps cs

/-- Substring occurrence over character lists. -/
def hasSub (pat : List Char) : List Char → Bool
  | [] => pat.isEmpty
  | c :: cs => leadsWith pat (c :: cs) || hasSub pat cs

/-- Python `pat in s` on strings. -/
def pyContains (s pat : String) : Bool := hasSub pat.data s.data

/- ===== Data model (dataclasses of abstract.py) ===== -/

/-- Python exception outcomes that the embedded code can surface, plus the two
ways the embedding keeps non-terminating source behaviour total:
`recursionLimit` models Python's recursion limit being hit and
`infiniteLoop` marks the never-terminating `while` walk of
`_find_mount_point` when no ancestor is a mount point. -/
inductive PyErr where
  | indexError
  | attributeError
  | recursionLimit
  | infiniteLoop
  deriving DecidableEq, Repr

/-- `Parameters` dataclass. Filesystem paths that the inspection code walks
are modelled as component lists (root = `[]`); `Path("/Volumes/Fuji")` is
`["Volumes", "Fuji"]`. The `case` field is renamed `caseName` because `case`
is a Lean keyword. -/
structure Parameters where
  caseName : String := ""
  examiner : String := ""
  notes : String := ""
  image_name : String := "FujiAcquisition"
  source : List String := []
  tmp : List String := ["Volumes", "Fuji"]
  destination : List String := ["Volumes", "Fuji"]
  deriving DecidableEq, Repr

/-- `PathDetails` dataclass. -/
structure PathDetails where
  path : List String
  is_disk : Bool := true
  disk_sectors : Nat := 0
  disk_device : String := ""
  disk_identifier : Nat := 0
  disk_info : String := ""
  deriving DecidableEq, Repr

/-- `HashedFile` dataclass. -/
structure HashedFile where
  path : String
  md5 : String := ""
  sha1 : String := ""
  sha256 : String := ""
  deriving DecidableEq, Repr

/-- `Report` dataclass. `method` stores the strategy's display name (the
source stores the strategy object and only its `name` is ever read, by the
report writer). Timestamps are opaque `Nat` tokens. -/
structure Report where
  parameters : Parameters
  method : String
  start_time : Option Nat := none
  end_time : Option Nat := none
  path_details : Option PathDetails := none
  hardware_info : String := ""
  success : Bool := false
  output_files : List String := []
  result : Option HashedFile := none
  deriving DecidableEq, Repr

/- ===== CPython float semantics of `int(blocks * frsize / 512)` ===== -/

/-- Smallest power-of-two unit such that `n / unit` fits in 53 bits; the fuel
bound 1100 covers every value below the IEEE-double overflow threshold. -/
def findUnit (n : Nat) : Nat → Nat → Nat
  | 0, u => u
  | f + 1, u => if n < 9007199254740992 * u then u else findUnit n f (2 * u)

/-- Round a natural number to the nearest IEEE-754 double (53-bit mantissa,
ties to even), as CPython does when an int meets float arithmetic. -/
def roundDouble (n : Nat) : Nat :=
  let u := findUnit n 1100 1
  let q := n / u
  let r := n % u
  if 2 * r < u then q * u
  else if 2 * r > u then (q + 1) * u
  else (if q % 2 == 0 then q else q + 1) * u

/-- `int(n / 512)` for a Python int `n`: CPython true division produces the
correctly rounded double of the exact quotient; dividing by `512 = 2 ^ 9` is
an exact exponent shift, so the result is `roundDouble n / 512` truncated,
i.e. natural division (double overflow, beyond `2 ^ 1024`, is out of the
modelled range). -/
def pySectors (n : Nat) : Nat := roundDouble n / 512

/- ===== Digest engines (hashlib reference implementations) ===== -/

def not32 (x : Nat) : Nat := x ^^^ 4294967295

def rotl32 (x n : Nat) : Nat := ((x <<< n) ||| (x >>> (32 - n))) % 4294967296

def rotr32 (x n : Nat) : Nat := ((x >>> n) ||| (x <<< (32 - n))) % 4294967296

def hexDigitChars : List Char := "0123456789abcdef".data

def hexChar (n : Nat) : Char :=
  hexDigitChars.get ⟨n % 16, Nat.mod_lt n (by decide)⟩

/-- Lowercase hexadecimal rendering of a byte list, two digits per byte. -/
def bytesToHex : List Nat → List Char
  | [] => []
  | b :: bs => hexChar (b / 16) :: hexChar b :: bytesToHex bs

/-- Split a byte list into chunks of `m + 1` bytes (the last chunk may be
shorter); fuel at least the list length guarantees full consumption. -/
def chunkAux (m : Nat) : Nat → List Nat → List (List Nat)
  | _, [] => []
  | 0, l => [l]
  | f + 1, l => l.take (m + 1) :: chunkAux m f (l.drop (m + 1))

def word32LE (w : Nat) : List Nat :=
  [w % 256, w / 256 % 256, w / 65536 % 256, w / 16777216 % 256]

def word32BE (w : Nat) : List Nat :=
  [w / 16777216 % 256, w / 65536 % 256, w / 256 % 256, w % 256]

def wordsLE : List Nat → List Nat
  | b0 :: b1 :: b2 :: b3 :: rest => (b0 + 256 * b1 + 65536 * b2 + 16777216 * b3) :: wordsLE rest
  | _ => []

def wordsBE : List Nat → List Nat
  | b0 :: b1 :: b2 :: b3 :: rest => (16777216 * b0 + 65536 * b1 + 256 * b2 + b3) :: wordsBE rest
  | _ => []

def lenBytesLE (n : Nat) : List Nat :=
  [n % 256, n / 256 % 256, n / 65536 % 256, n / 16777216 % 256,
   n / 4294967296 % 256, n / 1099511627776 % 256, n / 281474976710656 % 256,
   n / 72057594037927936 % 256]

def lenBytesBE (n : Nat) : List Nat :=
  [n / 72057594037927936 % 256, n / 281474976710656 % 256, n / 1099511627776 % 256,
   n / 4294967296 % 256, n / 16777216 % 256, n / 65536 % 256, n / 256 % 256, n % 256]

/-- Merkle–Damgård padding: `128`, zeros to 56 mod 64, then the bit length
in eight bytes (endianness chosen by `lenBytes`). -/
def padMessage (lenBytes : Nat → List Nat) (msg : List Nat) : List Nat :=
  let padLen := (64 + 56 - (msg.length + 1) % 64) % 64
  msg ++ 128 :: List.replicate padLen 0 ++ lenBytes (8 * msg.length)

/-- The 64 MD5 round constants floor(abs(sin(i+1)) * 2^32) of RFC 1321, in decimal. -/
def md5K : List Nat :=
  [3614090360, 3905402710, 606105819, 3250441966, 4118548399, 1200080426, 2821735955, 4249261313,
   1770035416, 2336552879, 4294925233, 2304563134, 1804603682, 4254626195, 2792965006, 1236535329,
   4129170786, 3225465664, 643717713, 3921069994, 3593408605, 38016083, 3634488961, 3889429448,
   568446438, 3275163606, 4107603335, 1163531501, 2850285829, 4243563512, 1735328473, 2368359562,
   4294588738, 2272392833, 1839030562, 4259657740, 2763975236, 1272893353, 4139469664, 3200236656,
   681279174, 3936430074, 3572445317, 76029189, 3654602809, 3873151461, 530742520, 3299628645,
   4096336452, 1126891415, 2878612391, 4237533241, 1700485571, 2399980690, 4293915773, 2240044497,
   1873313359, 4264355552, 2734768916, 1309151649, 4149444226, 3174756917, 718787259, 3951481745]

def md5Shifts : List Nat := [7, 12, 17, 22, 5, 9, 14, 20, 4, 11, 16, 23, 6, 10, 15, 21]

def md5S (i : Nat) : Nat := md5Shifts.getD (4 * (i / 16) + i % 4) 0

def md5F (i b c d : Nat) : Nat :=
  if i < 16 then (b &&& c) ||| (not32 b &&& d)
  else if i < 32 then (d &&& b) ||| (not32 d &&& c)
  else if i < 48 then b ^^^ c ^^^ d
  else c ^^^ (b ||| not32 d)

def md5G (i : Nat) : Nat :=
  if i < 16 then i
  else if i < 32 then (5 * i + 1) % 16
  else if i < 48 then (3 * i + 5) % 16
  else (7 * i) % 16

def md5Step (M : List Nat) (st : Nat × Nat × Nat × Nat) (i : Nat) : Nat × Nat × Nat × Nat :=
  match st with
  | (a, b, c, d) =>
    let fv := (md5F i b c d + a + md5K.getD i 0 + M.getD (md5G i) 0) % 4294967296
    (d, (b + rotl32 fv (md5S i)) % 4294967296, b, c)

def md5Block (st : Nat × Nat × Nat × Nat) (block : List Nat) : Nat × Nat × Nat × Nat :=
  let M := wordsLE block
  let r := (List.range 64).foldl (md5Step M) st
  ((st.1 + r.1) % 4294967296, (st.2.1 + r.2.1) % 4294967296,
   (st.2.2.1 + r.2.2.1) % 4294967296, (st.2.2.2 + r.2.2.2) % 4294967296)

def md5Final (st : Nat × Nat × Nat × Nat) : List Nat :=
  word32LE st.1 ++ word32LE st.2.1 ++ word32LE st.2.2.1 ++ word32LE st.2.2.2

/-- MD5 digest bytes of a byte sequence (RFC 1321). -/
def md5Bytes (msg : List Nat) : List Nat :=
  let padded := padMessage lenBytesLE msg
  let blocks := chunkAux 63 padded.length padded
  md5Final (blocks.foldl md5Block (1732584193, 4023233417, 2562383102, 271733878))

/-- `hashlib.md5(msg).hexdigest()`. -/
def md5Hex (msg : List Nat) : String := String.mk (bytesToHex (md5Bytes msg))

def sha1FK (i b c d : Nat) : Nat × Nat :=
  if i < 20 then ((b &&& c) ||| (not32 b &&& d), 1518500249)
  else if i < 40 then (b ^^^ c ^^^ d, 1859775393)
  else if i < 60 then ((b &&& c) ||| (b &&& d) ||| (c &&& d), 2400959708)
  else (b ^^^ c ^^^ d, 3395469782)

def sha1Extend (w : List Nat) : List Nat :=
  (List.range 64).foldl (fun acc _ =>
    let n := acc.length
    acc ++ [rotl32 (acc.getD (n - 3) 0 ^^^ acc.getD (n - 8) 0 ^^^
                    acc.getD (n - 14) 0 ^^^ acc.getD (n - 16) 0) 1]) w

def sha1Step (w : List Nat) (st : Nat × Nat × Nat × Nat × Nat) (i : Nat) :
    Nat × Nat × Nat × Nat × Nat :=
  match st with
  | (a, b, c, d, e) =>
    let fk := sha1FK i b c d
    let t := (rotl32 a 5 + fk.1 + e + fk.2 + w.getD i 0) % 4294967296
    (t, a, rotl32 b 30, c, d)

def sha1Block (st : Nat × Nat × Nat × Nat × Nat) (block : List Nat) :
    Nat × Nat × Nat × Nat × Nat :=
  let w := sha1Extend (wordsBE block)
  let r := (List.range 80).foldl (sha1Step w) st
  ((st.1 + r.1) % 4294967296, (st.2.1 + r.2.1) % 4294967296,
   (st.2.2.1 + r.2.2.1) % 4294967296, (st.2.2.2.1 + r.2.2.2.1) % 4294967296,
   (st.2.2.2.2 + r.2.2.2.2) % 4294967296)

def sha1Final (st : Nat × Nat × Nat × Nat × Nat) : List Nat :=
  word32BE st.1 ++ word32BE st.2.1 ++ word32BE st.2.2.1 ++ word32BE st.2.2.2.1 ++
  word32BE st.2.2.2.2

/-- SHA-1 digest bytes of a byte sequence (FIPS 180). -/
def sha1Bytes (msg : List Nat) : List Nat :=
  let padded := padMessage lenBytesBE msg
  let blocks := chunkAux 63 padded.length padded
  sha1Final (blocks.foldl sha1Block (1732584193, 4023233417, 2562383102, 271733878, 3285377520))

/-- `hashlib.sha1(msg).hexdigest()`. -/
def sha1Hex (msg : List Nat) : String := String.mk (bytesToHex (sha1Bytes msg))

/-- The 64 SHA-256 round constants of FIPS 180 (fractional cube roots of the first 64 primes), in decimal. -/
def sha256K : List Nat :=
  [1116352408, 1899447441, 3049323471, 3921009573, 961987163, 1508970993, 2453635748, 2870763221,
   3624381080, 310598401, 607225278, 1426881987, 1925078388, 2162078206, 2614888103, 3248222580,
   3835390401, 4022224774, 264347078, 604807628, 770255983, 1249150122, 1555081692, 1996064986,
   2554220882, 2821834349, 2952996808, 3210313671, 3336571891, 3584528711, 113926993, 338241895,
   666307205, 773529912, 1294757372, 1396182291, 1695183700, 1986661051, 2177026350, 2456956037,
   2730485921, 2820302411, 3259730800, 3345764771, 3516065817, 3600352804, 4094571909, 275423344,
   430227734, 506948616, 659060556, 883997877, 958139571, 1322822218, 1537002063, 1747873779,
   1955562222, 2024104815, 2227730452, 2361852424, 2428436474, 2756734187, 3204031479, 3329325298]

def sha256Extend (w : List Nat) : List Nat :=
  (List.range 48).foldl (fun acc _ =>
    let n := acc.length
    let x15 := acc.getD (n - 15) 0
    let x2 := acc.getD (n - 2) 0
    let s0 := rotr32 x15 7 ^^^ rotr32 x15 18 ^^^ (x15 >>> 3)
    let s1 := rotr32 x2 17 ^^^ rotr32 x2 19 ^^^ (x2 >>> 10)
    acc ++ [(acc.getD (n - 16) 0 + s0 + acc.getD (n - 7) 0 + s1) % 4294967296]) w

def sha256Step (w : List Nat) (st : Nat × Nat × Nat × Nat × Nat × Nat × Nat × Nat) (i : Nat) :
    Nat × Nat × Nat × Nat × Nat × Nat × Nat × Nat :=
  match st with
  | (a, b, c, d, e, f, g, h) =>
    let S1 := rotr32 e 6 ^^^ rotr32 e 11 ^^^ rotr32 e 25
    let ch := (e &&& f) ^^^ (not32 e &&& g)
    let t1 := (h + S1 + ch + sha256K.getD i 0 + w.getD i 0) % 4294967296
    let S0 := rotr32 a 2 ^^^ rotr32 a 13 ^^^ rotr32 a 22
    let mj := (a &&& b) ^^^ (a &&& c) ^^^ (b &&& c)
    let t2 := (S0 + mj) % 4294967296
    ((t1 + t2) % 4294967296, a, b, c, (d + t1) % 4294967296, e, f, g)

def sha256Block (st : Nat × Nat × Nat × Nat × Nat × Nat × Nat × Nat) (block : List Nat) :
    Nat × Nat × Nat × Nat × Nat × Nat × Nat × Nat :=
  let w := sha256Extend (wordsBE block)
  let r := (List.range 64).foldl (sha256Step w) st
  ((st.1 + r.1) % 4294967296, (st.2.1 + r.2.1) % 4294967296,
   (st.2.2.1 + r.2.2.1) % 4294967296, (st.2.2.2.1 + r.2.2.2.1) % 4294967296,
   (st.2.2.2.2.1 + r.2.2.2.2.1) % 4294967296, (st.2.2.2.2.2.1 + r.2.2.2.2.2.1) % 4294967296,
   (st.2.2.2.2.2.2.1 + r.2.2.2.2.2.2.1) % 4294967296,
   (st.2.2.2.2.2.2.2 + r.2.2.2.2.2.2.2) % 4294967296)

def sha256Final (st : Nat × Nat × Nat × Nat × Nat × Nat × Nat × Nat) : List Nat :=
  word32BE st.1 ++ word32BE st.2.1 ++ word32BE st.2.2.1 ++ word32BE st.2.2.2.1 ++
  word32BE st.2.2.2.2.1 ++ word32BE st.2.2.2.2.2.1 ++ word32BE st.2.2.2.2.2.2.1 ++
  word32BE st.2.2.2.2.2.2.2

/-- SHA-256 digest bytes of a byte sequence (FIPS 180). -/
def sha256Bytes (msg : List Nat) : List Nat :=
  let padded := padMessage lenBytesBE msg
  let blocks := chunkAux 63 padded.length padded
  sha256Final (blocks.foldl sha256Block
    (1779033703, 3144134277, 1013904242, 2773480762, 1359893119, 2600822924, 528734635, 1541459225))

/-- `hashlib.sha256(msg).hexdigest()`. -/
def sha256Hex (msg : List Nat) : String := String.mk (bytesToHex (sha256Bytes msg))

/- ===== AcquisitionMethod._compute_hashes ===== -/

/-- The loop state of `_compute_hashes`: the three hashlib objects are
modelled by the byte streams fed to them so far, plus the `amount` and
`last_percent` counters; `emits` records each printed progress marker as
(percent value, whether a line break followed because the value was a
multiple of 20). -/
structure HState where
  sha1 : List Nat
  sha256 : List Nat
  md5 : List Nat
  amount : Nat
  last_percent : Nat
  emits : List (Nat × Bool)
  deriving DecidableEq, Repr

/-- The `while True` read loop of `_compute_hashes`, one iteration per chunk
returned by `f.read(chunk_size)`. Mirrors the source: each chunk is fed to
all three digests, then `amount = amount + chunk_size` (the fixed 16384, not
the number of bytes actually read), `percent = 100 * amount // total_size`,
and a marker is printed only when `percent > last_percent`. -/
def hashLoop (total_size : Nat) : List (List Nat) → HState → HState
  | [], st => st
  | chunk :: rest, st =>
    let sha1 := st.sha1 ++ chunk
    let sha256 := st.sha256 ++ chunk
    let md5 := st.md5 ++ chunk
    let amount := st.amount + 16384
    let percent := 100 * amount / total_size
    if percent > st.last_percent then
      hashLoop total_size rest
        { sha1 := sha1, sha256 := sha256, md5 := md5, amount := amount,
          last_percent := percent,
          emits := st.emits ++ [(percent, percent % 20 == 0)] }
    else
      hashLoop total_size rest
        { sha1 := sha1, sha256 := sha256, md5 := md5, amount := amount,
          last_percent := st.last_percent, emits := st.emits }

/-- Run the `_compute_hashes` loop on a file with the given byte content:
`os.stat(path).st_size` is the content length and `f.read(16 * 1024)` yields
successive chunks of at most 16384 bytes (`chunkAux 16383` makes chunks of
size `16383 + 1`). -/
def hash_run (content : List Nat) : HState :=
  hashLoop content.length (chunkAux 16383 content.length content)
    { sha1 := [], sha256 := [], md5 := [], amount := 0, last_percent := 0, emits := [] }

/-- `AcquisitionMethod._compute_hashes` (abstract.py lines 203-236): the
returned `HashedFile` with the three hexdigests. -/
def compute_hashes (path : String) (content : List Nat) : HashedFile :=
  let s := hash_run content
  { path := path, md5 := md5Hex s.md5, sha1 := sha1Hex s.sha1, sha256 := sha256Hex s.sha256 }

/-- The sequence of progress markers printed by `_compute_hashes`. -/
def progress_markers (content : List Nat) : List (Nat × Bool) :=
  (hash_run content).emits

/- ===== AcquisitionMethod._detach_temporary_image ===== -/

/-- The `while not result` loop of `_detach_temporary_image` (abstract.py
lines 169-182). `result` starts as Python `False` (modelled by the falsy
`Int` 0) and is overwritten each iteration by the exit code of the detach
command; `run_detach k` is the exit code of the (k+1)-th invocation. Returns
(final boolean, number of detach attempts actually performed). The fuel only
certifies termination: a nonzero stored exit code already ends the loop, so
`attempts + 1` iterations are never exceeded. -/
def detachLoop (run_detach : Nat → Int) (attempts : Nat) :
    Nat → Int → Nat → Nat → Bool × Nat
  | 0, _, _, count => (false, count)
  | fuel + 1, result, i, count =>
    if result ≠ 0 then (false, count)
    else
      let r := run_detach count
      if r == 0 then (true, count + 1)
      else
        if i + 1 == attempts then (false, count + 1)
        else detachLoop run_detach attempts fuel r (i + 1) (count + 1)

/-- `AcquisitionMethod._detach_temporary_image`, with the initial
`time.sleep(delay)` and the inter-attempt `time.sleep(interval)` elided
(they do not affect the attempt count or the returned value). -/
def detach_temporary_image (run_detach : Nat → Int) (attempts : Nat) : Bool × Nat :=
  detachLoop run_detach attempts (attempts + 1) 0 1 0

/- ===== Environment: external processes, filesystem, dialogs ===== -/

/-- Everything the acquisition code observes from outside the process, read
through `subprocess` / `os` / the AppleScript dialogs. Each field models the
outcome at one call site; command-spawn failures are outside the model.
`statvfs` is `(f_blocks, f_frsize)`; `diskutil` is the `_run_silent` result
`(returncode, stdout)` of `diskutil info <path>`; `image_dialog` and
`dest_dialog` are `none` when `osascript` exits nonzero (the
`CalledProcessError` caught by the prompt helpers) and otherwise carry its
stdout; `df` is `none` when `subprocess.check_output` raises
`CalledProcessError`; `detach_status` and `ditto_status` are the exit codes
returned by the streaming runner for `hdiutil detach` and `ditto`;
`time1` and `time2` are the two `datetime.now()` observations of `execute`. -/
structure Env where
  ismount : List String → Bool
  statvfs : List String → Nat × Nat
  stat_dev : List String → Nat
  diskutil : List String → Int × String
  realpath : List String → List String
  system_profiler : Int × String
  image_dialog : Option String
  dest_dialog : Option String
  attach : String → Int × String
  df : String → Option String
  detach_status : String → Int
  ditto_status : String → String → Int
  time1 : Nat
  time2 : Nat

/-- `AcquisitionMethod._gather_hardware_info`: runs `system_profiler` through
`_run_silent` and ignores the exit code. -/
def gather_hardware_info (env : Env) : String := (env.system_profiler).2

/-- The `while not os.path.ismount(path): path = os.path.dirname(path)` walk
of `_find_mount_point`, on the already-`realpath`-resolved path. `dirname` is
`dropLast` on the component list (the root `[]` is its own dirname, exactly as
`dirname("/") = "/"`); when no prefix is a mount point the source loops
forever, which the exhausted fuel reports as `none`. -/
def find_mount_walk (env : Env) : Nat → List String → Option (List String)
  | 0, _ => none
  | fuel + 1, p => if env.ismount p then some p else find_mount_walk env fuel p.dropLast

/-- `AcquisitionMethod._find_mount_point`: fuel `length + 1` suffices to reach
the root, so `none` occurs exactly when even the root is not a mount point. -/
def find_mount_point (env : Env) (path : List String) : Option (List String) :=
  let rp := env.realpath path
  find_mount_walk env (rp.length + 1) rp

/-- `AcquisitionMethod._gather_path_info` (abstract.py lines 101-130), with a
fuel bound modelling Python\'s recursion limit. On a mount point it parses
`diskutil info` output — `lines[1].split(":")[1].strip()` raises `IndexError`
when a zero-exit output has fewer than two lines or no colon on line index 1;
on a nonzero exit it sets `is_disk = False` and leaves the device empty. Off
a mount point it recurses on the enclosing mount point and copies that
result\'s `disk_device` and `disk_info`, keeping its own geometry. -/
def gather_path_info (env : Env) : Nat → List String → Except PyErr PathDetails
  | 0, _ => .error .recursionLimit
  | fuel + 1, path =>
    let is_disk := env.ismount path
    let stats := env.statvfs path
    let sectors := pySectors (stats.1 * stats.2)
    if is_disk then
      let r := env.diskutil path
      let lines := pySplitlines r.2
      if r.1 == 0 then
        match lines.get? 1 with
        | none => .error .indexError
        | some l1 =>
          match (pySplitChar ':' l1).get? 1 with
          | none => .error .indexError
          | some v =>
            .ok { path := path, is_disk := true, disk_sectors := sectors,
                  disk_device := pyStrip v, disk_identifier := env.stat_dev path,
                  disk_info := r.2 }
      else
        .ok { path := path, is_disk := false, disk_sectors := sectors,
              disk_device := "", disk_identifier := env.stat_dev path,
              disk_info := r.2 }
    else
      match find_mount_point env path with
      | none => .error .infiniteLoop
      | some mount_point =>
        match gather_path_info env fuel mount_point with
        | .error e => .error e
        | .ok mount_info =>
          .ok { path := path, is_disk := false, disk_sectors := sectors,
                disk_device := mount_info.disk_device,
                disk_identifier := env.stat_dev path,
                disk_info := mount_info.disk_info }

/- ===== SnapshotMountMethod (snapshot.py) ===== -/

/-- `SnapshotMountMethod._prompt_for_image`: `osascript` nonzero exit is the
caught `CalledProcessError` (`none`); otherwise `result.stdout.strip()`. -/
def prompt_for_image (env : Env) : Option String := env.image_dialog.map pyStrip

/-- `SnapshotMountMethod._prompt_for_destination`, same shape. -/
def prompt_for_destination (env : Env) : Option String := env.dest_dialog.map pyStrip

/-- Python truthiness of an optional string as used by
`if not snapshot_image:` / `if not destination_path:` — `None` and the empty
string are both falsy; the result is the value when truthy. -/
def chooser_value : Option String → Option String
  | none => none
  | some s => if s == "" then none else some s

/-- `SnapshotMountMethod._mount_snapshot_image` (snapshot.py lines 110-135):
attaches the image, filters `output.strip().splitlines()` for lines containing
`"/Volumes"`, splits the first such line with `re.split(r\'\\s+\', line,
maxsplit=2)` and returns field index 2; every malformed shape returns `None`. -/
def mount_snapshot_image (env : Env) (image_path : String) : Option String :=
  let r := env.attach image_path
  if r.1 != 0 then none
  else
    let output_lines := pySplitlines (pyStrip r.2)
    let volume_lines := output_lines.filter (fun line => pyContains line "/Volumes")
    match volume_lines with
    | [] => none
    | mount_line :: _ =>
      let parts := reSplitWs2 mount_line
      if parts.length < 3 then none
      else some (parts.getD 2 "")

/-- `SnapshotMountMethod._get_disk_device_from_mount` (snapshot.py lines
148-166): `df` nonzero exit is caught (`CalledProcessError` → `None`), fewer
than two output lines gives `None`, but `data_line.split()[0]` on a blank
data line raises an uncaught `IndexError`. -/
def get_disk_device_from_mount (env : Env) (mount_point : String) :
    Except PyErr (Option String) :=
  match env.df mount_point with
  | none => .ok none
  | some df_output =>
    let lines := pySplitlines (pyStrip df_output)
    if lines.length < 2 then .ok none
    else
      let data_line := lines.getD 1 ""
      match pySplitWs data_line with
      | [] => .error .indexError
      | device :: _ => .ok (some device)

/-- `SnapshotMountMethod._detach_mounted_image` (snapshot.py lines 137-146).
The detach command itself runs through `_run_status`, whose exit code the
environment supplies (see `copy_with_ditto` for the `_run_status` note). -/
def detach_mounted_image (env : Env) (mount_point : String) : Except PyErr Bool :=
  match get_disk_device_from_mount env mount_point with
  | .error e => .error e
  | .ok none => .ok false
  | .ok (some disk_device) =>
    if disk_device == "" then .ok false
    else .ok (env.detach_status disk_device == 0)

/-- `SnapshotMountMethod._copy_with_ditto` (snapshot.py lines 168-190).
Modelled from the spec: the runner `_run_status` that this method and
`_detach_mounted_image` call is not among the provided sources (only these
call sites are); per spec §4.1 it is the streaming runner variant that
returns the child\'s exit code and optionally tees output to the given log
file, so the environment supplies that exit code directly
(`env.ditto_status source destination`); the sidecar `ditto_copy.log` tee
target is a pure side effect. -/
def copy_with_ditto (env : Env) (source destination : String) : Bool :=
  env.ditto_status source destination == 0

/-- Rendering of an optional timestamp token as the Python f-string does
(`None` prints as "None"). -/
def fmtTime : Option Nat → String
  | none => "None"
  | some t => toString t

/-- Rendering of a component-list path. -/
def pathString (p : List String) : String := "/" ++ String.intercalate "/" p

/-- The `"-" * 80` section separator of `_write_report`. -/
def separator : String := String.mk (List.replicate 80 '-')

/-- `AcquisitionMethod._write_report` (abstract.py lines 238-279), returning
the lines written to the report file. The line list is built before anything
is written, in source order: `report.path_details.disk_info` is evaluated
first and `report.result.path` after the output-file comprehension, so a
`None` in either field raises `AttributeError` before any content exists. -/
def write_report (report : Report) : Except PyErr (List String) :=
  match report.path_details with
  | none => .error .attributeError
  | some pd =>
    match report.result with
    | none => .error .attributeError
    | some hf =>
      .ok ([ "Fuji - Forensic Unattended Juicy Imaging",
             "Acquisition log",
             separator,
             "Case name: " ++ report.parameters.caseName,
             "Examiner: " ++ report.parameters.examiner,
             "Notes: " ++ report.parameters.notes,
             separator,
             "Start time: " ++ fmtTime report.start_time,
             "End time: " ++ fmtTime report.end_time,
             "Source: " ++ pathString report.parameters.source,
             "Acquisition method: " ++ report.method,
             separator,
             report.hardware_info,
             separator,
             pd.disk_info,
             separator,
             "Generated files:" ]
        ++ report.output_files.map (fun file => "    - " ++ file)
        ++ [ separator,
             "Computed hashes (" ++ hf.path ++ "):",
             "    - MD5: " ++ hf.md5,
             "    - SHA1: " ++ hf.sha1,
             "    - SHA256: " ++ hf.sha256 ])

/-- `SnapshotMountMethod.execute` (snapshot.py lines 15-64). The result is
the returned `Report` together with the written report lines (`none` when no
report file is written); `.error` is an uncaught Python exception escaping to
the caller. The recursion-limit fuel 1000 is passed to `_gather_path_info`. -/
def execute (env : Env) (params : Parameters) : Except PyErr (Report × Option (List String)) :=
  let report0 : Report :=
    { parameters := params, method := "Snapshot Mount", start_time := some env.time1,
      hardware_info := gather_hardware_info env }
  match gather_path_info env 1000 params.source with
  | .error e => .error e
  | .ok pd =>
    let report1 := { report0 with path_details := some pd }
    match chooser_value (prompt_for_image env) with
    | none => .ok (report1, none)
    | some snapshot_image =>
      match mount_snapshot_image env snapshot_image with
      | none => .ok (report1, none)
      | some mounted_path =>
        match chooser_value (prompt_for_destination env) with
        | none =>
          match detach_mounted_image env mounted_path with
          | .error e => .error e
          | .ok _ => .ok (report1, none)
        | some destination_path =>
          let success := copy_with_ditto env mounted_path destination_path
          match detach_mounted_image env mounted_path with
          | .error e => .error e
          | .ok _detached =>
            let report2 := { report1 with success := success, end_time := some env.time2 }
            if success then
              let report3 :=
                { report2 with output_files := report2.output_files ++ [destination_path] }
              match write_report report3 with
              | .error e => .error e
              | .ok written => .ok (report3, some written)
            else .ok (report2, none)

/- ===== Concrete parameters and environments used by the claim theorems ===== -/

def env7w : Env :=
  { ismount := fun _ => true, statvfs := fun _ => (1000, 512), stat_dev := fun _ => 42,
    diskutil := fun _ => (0, "Device Info\n   Device Identifier:        disk7\n"),
    realpath := fun p => p, system_profiler := (0, "hw"), image_dialog := none,
    dest_dialog := none, attach := fun _ => (1, ""), df := fun _ => none,
    detach_status := fun _ => 1, ditto_status := fun _ _ => 1, time1 := 0, time2 := 0 }

/-- First component of a successful inspection result, for stating concrete
sector counts. -/
def getSectors : Except PyErr PathDetails → Nat
  | .ok d => d.disk_sectors
  | .error _ => 0

def envBigDisk : Env :=
  { ismount := fun _ => true, statvfs := fun _ => (18014398509481983, 1),
    stat_dev := fun _ => 1, diskutil := fun _ => (0, "h\nd: x\n"),
    realpath := fun p => p, system_profiler := (0, ""), image_dialog := none,
    dest_dialog := none, attach := fun _ => (1, ""), df := fun _ => none,
    detach_status := fun _ => 1, ditto_status := fun _ _ => 1, time1 := 0, time2 := 0 }

def env8w : Env :=
  { ismount := fun _ => true, statvfs := fun _ => (1000, 512), stat_dev := fun _ => 5,
    diskutil := fun _ => (1, "ERRX"), realpath := fun p => p,
    system_profiler := (0, ""), image_dialog := none, dest_dialog := none,
    attach := fun _ => (1, ""), df := fun _ => none, detach_status := fun _ => 1,
    ditto_status := fun _ _ => 1, time1 := 0, time2 := 0 }

/-- Device component of a successful inspection result. -/
def getDevice : Except PyErr PathDetails → String
  | .ok d => d.disk_device
  | .error _ => ""

def envQF : Env :=
  { ismount := fun p => p == ["v"] || p == [], statvfs := fun _ => (1000, 512),
    stat_dev := fun _ => 7,
    diskutil := fun p =>
      if p == ["v"] then ((1 : Int), "ERR")
      else ((0 : Int), "Header\nDevice Identifier: disk9\n"),
    realpath := fun p => p, system_profiler := (0, ""), image_dialog := none,
    dest_dialog := none, attach := fun _ => (1, ""), df := fun _ => none,
    detach_status := fun _ => 1, ditto_status := fun _ _ => 1, time1 := 0, time2 := 0 }

def envQFnotMount : Env :=
  { envQF with ismount := fun p => if p == ["v"] then false else envQF.ismount p }

def params10 : Parameters :=
  { caseName := "W", examiner := "E", notes := "", image_name := "Img",
    source := ["data"], tmp := ["Volumes", "Fuji"], destination := ["Volumes", "Fuji"] }

def env10 : Env :=
  { ismount := fun _ => true, statvfs := fun _ => (1000, 512), stat_dev := fun _ => 42,
    diskutil := fun _ => (0, "Device Summary\n   Device Identifier:         disk10\n"),
    realpath := fun p => p, system_profiler := (0, "MacBook hardware overview"),
    image_dialog := none, dest_dialog := none, attach := fun _ => (1, ""),
    df := fun _ => none, detach_status := fun _ => 1, ditto_status := fun _ _ => 1,
    time1 := 100, time2 := 200 }

def params1 : Parameters :=
  { caseName := "CASE1", examiner := "EX", notes := "", image_name := "Img1",
    source := ["Volumes", "Data"], tmp := ["Volumes", "Fuji"],
    destination := ["Volumes", "Fuji"] }

def envSuccess1 : Env :=
  { ismount := fun _ => true, statvfs := fun _ => (8, 512), stat_dev := fun _ => 3,
    diskutil := fun _ => (0, "disk info\nDevice Identifier: disk1s1\n"),
    realpath := fun p => p, system_profiler := (0, "hardware overview"),
    image_dialog := some " /tmp/snapshot.dmg\n", dest_dialog := some "/tmp/dest",
    attach := fun _ => (0, "/dev/disk6 GUID_partition_scheme /Volumes/Snap\n"),
    df := fun _ => some "Filesystem 512-blocks Mounted\n/dev/disk6 1000 /Volumes/Snap",
    detach_status := fun _ => 0, ditto_status := fun _ _ => 0, time1 := 1, time2 := 2 }

def envBadQuery1 : Env :=
  { envSuccess1 with diskutil := fun _ => ((0 : Int), "only one line") }

def params2 : Parameters :=
  { caseName := "CASE2", examiner := "E2", notes := "n2", image_name := "Img2",
    source := ["Volumes", "D2"], tmp := ["Volumes", "Fuji"],
    destination := ["Volumes", "Fuji"] }

def envCopyOk2 : Env :=
  { ismount := fun _ => true, statvfs := fun _ => (8, 512), stat_dev := fun _ => 77,
    diskutil := fun _ => (0, "i\nId: disk2s2\n"), realpath := fun p => p,
    system_profiler := (0, "hw2"), image_dialog := some " /img2.dmg\n",
    dest_dialog := some "/out2",
    attach := fun _ => (0, "/dev/disk7 Apple_HFS /Volumes/Snap2\n"),
    df := fun _ => some "Filesystem Mounted\n/dev/disk7 1 /Volumes/Snap2",
    detach_status := fun _ => 0, ditto_status := fun _ _ => 0, time1 := 11, time2 := 12 }

def envCopyFail2 : Env := { envCopyOk2 with ditto_status := fun _ _ => 1 }

def params3 : Parameters :=
  { caseName := "CASE3", examiner := "E3", notes := "", image_name := "Img3",
    source := ["Users", "alice"], tmp := ["Volumes", "Fuji"],
    destination := ["Volumes", "Fuji"] }

def envNoHash3 : Env :=
  { ismount := fun _ => true, statvfs := fun _ => (4, 512), stat_dev := fun _ => 9,
    diskutil := fun _ => (0, "x\nY: disk3s1\n"), realpath := fun p => p,
    system_profiler := (0, "hw3"), image_dialog := some " /snap3.sparseimage\n",
    dest_dialog := some "/dest3",
    attach := fun _ => (0, "/dev/disk8 Apple_APFS /Volumes/Snap3\n"),
    df := fun _ => some "FS M\n/dev/disk8 9 /Volumes/Snap3",
    detach_status := fun _ => 1, ditto_status := fun _ _ => 0, time1 := 21, time2 := 22 }



theorem findUnit_of_lt (n : Nat) (fuel u : Nat) (h : n < 9007199254740992 * u) :
    findUnit n (fuel + 1) u = u := by
  simp [findUnit, h]

theorem roundDouble_of_lt (n : Nat) (h : n < 9007199254740992) : roundDouble n = n := by
  have hu : findUnit n 1100 1 = 1 := findUnit_of_lt n 1099 1 (by omega)
  simp [roundDouble, hu, Nat.mod_one, Nat.div_one]

theorem pySectors_of_lt (n : Nat) (h : n < 9007199254740992) : pySectors n = n / 512 := by
  simp [pySectors, roundDouble_of_lt n h]

theorem chunkAux_flatten (m : Nat) : ∀ (fuel : Nat) (l : List Nat), l.length ≤ fuel →
    (chunkAux m fuel l).flatten = l := by
  intro fuel
  induction fuel with
  | zero =>
    intro l h
    have : l = [] := List.eq_nil_of_length_eq_zero (Nat.le_zero.mp h)
    subst this
    simp [chunkAux]
  | succ f ih =>
    intro l h
    cases l with
    | nil => simp [chunkAux]
    | cons x xs =>
      have hlen : ((x :: xs).drop (m + 1)).length ≤ f := by
        simp only [List.length_drop, List.length_cons] at *
        omega
      simp only [chunkAux, List.flatten_cons, ih _ hlen]
      exact List.take_append_drop _ _

theorem hashLoop_md5 (T : Nat) : ∀ (chunks : List (List Nat)) (st : HState),
    (hashLoop T chunks st).md5 = st.md5 ++ chunks.flatten := by
  intro chunks
  induction chunks with
  | nil => intro st; simp [hashLoop]
  | cons c rest ih =>
    intro st
    simp only [hashLoop, List.flatten_cons]
    split <;> simp [ih, List.append_assoc]

theorem hashLoop_sha1 (T : Nat) : ∀ (chunks : List (List Nat)) (st : HState),
    (hashLoop T chunks st).sha1 = st.sha1 ++ chunks.flatten := by
  intro chunks
  induction chunks with
  | nil => intro st; simp [hashLoop]
  | cons c rest ih =>
    intro st
    simp only [hashLoop, List.flatten_cons]
    split <;> simp [ih, List.append_assoc]

theorem hashLoop_sha256 (T : Nat) : ∀ (chunks : List (List Nat)) (st : HState),
    (hashLoop T chunks st).sha256 = st.sha256 ++ chunks.flatten := by
  intro chunks
  induction chunks with
  | nil => intro st; simp [hashLoop]
  | cons c rest ih =>
    intro st
    simp only [hashLoop, List.flatten_cons]
    split <;> simp [ih, List.append_assoc]

theorem hash_run_feeds (content : List Nat) :
    (hash_run content).md5 = content ∧ (hash_run content).sha1 = content ∧
    (hash_run content).sha256 = content := by
  have hj := chunkAux_flatten 16383 content.length content (Nat.le_refl _)
  refine ⟨?_, ?_, ?_⟩ <;>
    simp [hash_run, hashLoop_md5, hashLoop_sha1, hashLoop_sha256, hj]

theorem hexChar_mem (n : Nat) : hexChar n ∈ hexDigitChars := List.get_mem _ _ _

theorem bytesToHex_mem : ∀ (l : List Nat) (c : Char), c ∈ bytesToHex l → c ∈ hexDigitChars := by
  intro l
  induction l with
  | nil => intro c h; simp [bytesToHex] at h
  | cons b bs ih =>
    intro c h
    simp only [bytesToHex, List.mem_cons] at h
    rcases h with h | h | h
    · exact h ▸ hexChar_mem _
    · exact h ▸ hexChar_mem _
    · exact ih c h

theorem bytesToHex_length : ∀ l : List Nat, (bytesToHex l).length = 2 * l.length := by
  intro l
  induction l with
  | nil => simp [bytesToHex]
  | cons b bs ih => simp [bytesToHex, ih]; omega

theorem md5Bytes_length (msg : List Nat) : (md5Bytes msg).length = 16 := by
  simp [md5Bytes, md5Final, word32LE]

theorem sha1Bytes_length (msg : List Nat) : (sha1Bytes msg).length = 20 := by
  simp [sha1Bytes, sha1Final, word32BE]

theorem sha256Bytes_length (msg : List Nat) : (sha256Bytes msg).length = 32 := by
  simp [sha256Bytes, sha256Final, word32BE]

/- ===== Claim C5 ===== -/

/-- C5: for every byte sequence given as file content, `_compute_hashes`
returns MD5, SHA-1 and SHA-256 digests equal to the reference digest of the
whole byte sequence (the independent one-shot implementations `md5Hex`,
`sha1Hex`, `sha256Hex`), as lowercase hexadecimal strings of 32, 40 and 64
characters; and the byte streams fed to the three digest objects during the
single chunked pass are all identical to the file content. -/
theorem hash_digests_reference_single_pass (path : String) (content : List Nat) :
    compute_hashes path content =
      { path := path, md5 := md5Hex content, sha1 := sha1Hex content,
        sha256 := sha256Hex content } ∧
    (hash_run content).md5 = content ∧ (hash_run content).sha1 = content ∧
    (hash_run content).sha256 = content ∧
    (md5Hex content).length = 32 ∧ (sha1Hex content).length = 40 ∧
    (sha256Hex content).length = 64 ∧
    (∀ c ∈ (md5Hex content).data, c ∈ hexDigitChars) ∧
    (∀ c ∈ (sha1Hex content).data, c ∈ hexDigitChars) ∧
    (∀ c ∈ (sha256Hex content).data, c ∈ hexDigitChars) := by
  obtain ⟨h1, h2, h3⟩ := hash_run_feeds content
  refine ⟨?_, h1, h2, h3, ?_, ?_, ?_, ?_, ?_, ?_⟩
  · simp [compute_hashes, h1, h2, h3]
  · show (bytesToHex (md5Bytes content)).length = 32
    rw [bytesToHex_length, md5Bytes_length]
  · show (bytesToHex (sha1Bytes content)).length = 40
    rw [bytesToHex_length, sha1Bytes_length]
  · show (bytesToHex (sha256Bytes content)).length = 64
    rw [bytesToHex_length, sha256Bytes_length]
  · intro c hc; exact bytesToHex_mem (md5Bytes content) c hc
  · intro c hc; exact bytesToHex_mem (sha1Bytes content) c hc
  · intro c hc; exact bytesToHex_mem (sha256Bytes content) c hc

/- ===== Claim C9 ===== -/

/-- C9: on a zero-length file the hash loop performs no read iteration (so the
division by the zero total size is never executed and no progress marker is
printed — completion is immediate) and the returned digests are the
well-known empty-input MD5 / SHA-1 / SHA-256 constants. -/
theorem hash_empty_input :
    compute_hashes "file" [] =
      { path := "file", md5 := "d41d8cd98f00b204e9800998ecf8427e",
        sha1 := "da39a3ee5e6b4b0d3255bfef95601890afd80709",
        sha256 := "e3b0c44298fc1c149afbf4c8996fb92427ae41e4649b934ca495991b7852b855" } ∧
    progress_markers [] = [] := by
  constructor
  · decide
  · rfl

/- ===== Claim C6 ===== -/

/-- C6: evaluation at the failing input. For a file of one byte (size 1), the
claimed progress value after its single chunk is
`floor(100 * bytesRead / size) = 100 * 1 / 1 = 100`, but the code adds the
fixed `chunk_size` 16384 to its cumulative counter and prints
`100 * 16384 / 1 = 1638400` (with a line break, 1638400 being a multiple
of 20) — far beyond 100, refuting both the claimed formula and the claimed
100 bound. -/
theorem progress_overshoot_one_byte :
    progress_markers [55] = [(1638400, true)] ∧ 100 * 1 / 1 = 100 := by decide

/- ===== Claim C4 ===== -/

/-- C4: evaluation at the failing inputs. With `attempts = 3` and a detach
command that always exits 1, `_detach_temporary_image` performs exactly one
attempt (not three) and returns failure, because the nonzero exit code stored
in `result` is truthy and ends the `while not result` loop; with a command
that fails once and then succeeds it also stops after the single failed
attempt instead of succeeding on the second. -/
theorem detach_single_attempt :
    detach_temporary_image (fun _ => 1) 3 = (false, 1) ∧
    detach_temporary_image (fun k => if k == 0 then 1 else 0) 3 = (false, 1) := by
  decide

/- ===== Claim C7 ===== -/

/-- C7 (amended): for a mount-boundary path whose volume-info query succeeds
with well-formed output and whose filesystem statistics report `b` blocks of
size `s` with `b * s < 2 ^ 53`, `_gather_path_info` returns `is_disk = true`
and `disk_sectors = (b * s) / 512` (integer division; the code computes
`int(float(b * s) / 512)`, which coincides below `2 ^ 53`). -/
theorem describe_sectors_and_mount (env : Env) (path : List String) (fuel b s : Nat)
    (out l1 v : String)
    (hstat : env.statvfs path = (b, s))
    (hsize : b * s < 9007199254740992)
    (hmount : env.ismount path = true)
    (hq : env.diskutil path = (0, out))
    (hl1 : (pySplitlines out)[1]? = some l1)
    (hv : (pySplitChar ':' l1)[1]? = some v) :
    gather_path_info env (fuel + 1) path = .ok
      { path := path, is_disk := true, disk_sectors := b * s / 512,
        disk_device := pyStrip v, disk_identifier := env.stat_dev path,
        disk_info := out } := by
  simp [gather_path_info, hstat, hmount, hq, hl1, hv, pySectors_of_lt _ hsize]

/-- C7 witness: the spec example, blocks = 1000 and block size = 512 give
1000 sectors on a mounted volume with a successful query. -/
theorem describe_sectors_and_mount_witness :
    gather_path_info env7w 1000 ["Volumes", "HD"] = .ok
      { path := ["Volumes", "HD"], is_disk := true, disk_sectors := 1000,
        disk_device := "disk7", disk_identifier := 42,
        disk_info := "Device Info\n   Device Identifier:        disk7\n" } :=
  describe_sectors_and_mount env7w ["Volumes", "HD"] 999 1000 512
    "Device Info\n   Device Identifier:        disk7\n"
    "   Device Identifier:        disk7" "        disk7"
    rfl (by decide) rfl rfl rfl rfl

/-- C7 counterexample: with `b = 2 ^ 54 - 1` blocks of size 1 byte, the code
(`int(b * s / 512)` under CPython float true division) yields `2 ^ 45 =
35184372088832` sectors, while the claimed integer division
`(b * s) / 512` is `35184372088831` — the claim fails for such statistics. -/
theorem describe_sectors_float_counterexample :
    getSectors (gather_path_info envBigDisk 1000 ["big"]) = 35184372088832 ∧
    18014398509481983 * 1 / 512 = 35184372088831 ∧
    getSectors (gather_path_info envBigDisk 1000 ["big"]) ≠ 18014398509481983 * 1 / 512 := by
  decide

/- ===== Claim C8 ===== -/

/-- C8 (amended): when `describe` is called on a mount-boundary path and the
volume-info query exits nonzero, it does not fail: the result has
`is_disk = false`, an empty device identifier and the failed query\'s own
output as `disk_info` — the ancestor-walk step is not performed. -/
theorem failed_query_marks_not_disk (env : Env) (path : List String) (fuel : Nat)
    (st : Int) (out : String)
    (hmount : env.ismount path = true)
    (hq : env.diskutil path = (st, out))
    (hst : ¬ st = 0) :
    gather_path_info env (fuel + 1) path = .ok
      { path := path, is_disk := false,
        disk_sectors := pySectors ((env.statvfs path).1 * (env.statvfs path).2),
        disk_device := "", disk_identifier := env.stat_dev path, disk_info := out } := by
  simp [gather_path_info, hmount, hq, hst]

/-- C8 witness: a mount point whose `diskutil info` exits 1. -/
theorem failed_query_marks_not_disk_witness :
    gather_path_info env8w 1000 ["Volumes", "Bad"] = .ok
      { path := ["Volumes", "Bad"], is_disk := false, disk_sectors := 1000,
        disk_device := "", disk_identifier := 5, disk_info := "ERRX" } :=
  failed_query_marks_not_disk env8w ["Volumes", "Bad"] 999 1 "ERRX" rfl rfl (by decide)

/-- C8 counterexample: on the mount point `/v` whose query fails, the code
returns an empty device identifier, whereas actually treating the path as not
a mount boundary and falling through to the ancestor walk (the same
environment with `ismount` reporting false there, so the walk reaches the
root whose query succeeds with device `disk9`) would return `disk9` — the
results differ, so `describe` does not fall through to the ancestor-walk
step. -/
theorem failed_query_no_ancestor_walk :
    getDevice (gather_path_info envQF 1000 ["v"]) = "" ∧
    getDevice (gather_path_info envQFnotMount 1000 ["v"]) = "disk9" ∧
    gather_path_info envQF 1000 ["v"] ≠ gather_path_info envQFnotMount 1000 ["v"] := by
  refine ⟨rfl, rfl, fun h => ?_⟩
  have hc : ("" : String) = "disk9" := by
    calc ("" : String) = getDevice (gather_path_info envQF 1000 ["v"]) := rfl
    _ = getDevice (gather_path_info envQFnotMount 1000 ["v"]) := by rw [h]
    _ = "disk9" := rfl
  exact absurd hc (by decide)

/- ===== Claim C10 ===== -/

/-- C10: every run of `execute` that aborts before the copy step — image
chooser cancelled, mount/parse failed, or destination chooser cancelled (the
best-effort detach returning either way) — returns the report with
`success = false`, `end_time = None`, empty `output_files` and
`result = None`, with only `start_time`, `hardware_info` and `path_details`
filled in, and writes no report file. -/
theorem execute_abort_pristine (env : Env) (params : Parameters) (pd : PathDetails)
    (hpd : gather_path_info env 1000 params.source = .ok pd)
    (habort : chooser_value (prompt_for_image env) = none ∨
      (∃ img, chooser_value (prompt_for_image env) = some img ∧
        mount_snapshot_image env img = none) ∨
      (∃ img mp b, chooser_value (prompt_for_image env) = some img ∧
        mount_snapshot_image env img = some mp ∧
        chooser_value (prompt_for_destination env) = none ∧
        detach_mounted_image env mp = .ok b)) :
    execute env params = .ok
      ({ parameters := params, method := "Snapshot Mount", start_time := some env.time1,
         end_time := none, path_details := some pd,
         hardware_info := gather_hardware_info env, success := false,
         output_files := [], result := none }, none) := by
  rcases habort with h | ⟨img, h1, h2⟩ | ⟨img, mp, b, h1, h2, h3, h4⟩
  · simp [execute, hpd, h]
  · simp [execute, hpd, h1, h2]
  · simp [execute, hpd, h1, h2, h3, h4]

/-- C10 witness: a cancelled image chooser aborts with the pristine report. -/
theorem execute_abort_pristine_witness :
    execute env10 params10 = .ok
      ({ parameters := params10, method := "Snapshot Mount", start_time := some 100,
         end_time := none,
         path_details := some
           { path := ["data"], is_disk := true, disk_sectors := 1000,
             disk_device := "disk10", disk_identifier := 42,
             disk_info := "Device Summary\n   Device Identifier:         disk10\n" },
         hardware_info := "MacBook hardware overview", success := false,
         output_files := [], result := none }, none) :=
  execute_abort_pristine env10 params10
    { path := ["data"], is_disk := true, disk_sectors := 1000, disk_device := "disk10",
      disk_identifier := 42,
      disk_info := "Device Summary\n   Device Identifier:         disk10\n" }
    rfl (Or.inl rfl)

/- ===== Claim C1 ===== -/

/-- C1: evaluation at the failing inputs. In a run where every external step
succeeds (choosers return paths, `hdiutil attach` exits 0 with a parseable
`/Volumes` line, `ditto` exits 0, `df`/detach succeed), `execute` raises
`AttributeError` out of `_write_report` — `report.result` is still `None`
because the strategy never hashes — instead of returning a `Report`; and a
zero-exit volume-info query whose output has a single line raises
`IndexError` out of `_gather_path_info`. `execute` therefore does not return
a `Report` for every outcome of the external commands. -/
theorem execute_raises_attribute_and_index_error :
    execute envSuccess1 params1 = .error .attributeError ∧
    execute envBadQuery1 params1 = .error .indexError :=
  ⟨rfl, rfl⟩

/- ===== Claim C2 ===== -/

/-- C2: evaluation at the failing input and confirmation of the nonzero-copy
branch. When `ditto` exits 0 the code crashes with `AttributeError` while
building the report lines (`report.result` is `None`), so no `Report` with
the destination appended is returned and no report content is written; when
`ditto` exits nonzero the returned report has `end_time` stamped,
`success = false`, no output files and no report written — and the same
result with a failing detach, showing the detach outcome does not change the
success flag on that branch. -/
theorem copy_branch_outcomes :
    execute envCopyOk2 params2 = .error .attributeError ∧
    execute envCopyFail2 params2 = .ok
      ({ parameters := params2, method := "Snapshot Mount", start_time := some 11,
         end_time := some 12,
         path_details := some
           { path := ["Volumes", "D2"], is_disk := true, disk_sectors := 8,
             disk_device := "disk2s2", disk_identifier := 77,
             disk_info := "i\nId: disk2s2\n" },
         hardware_info := "hw2", success := false, output_files := [],
         result := none }, none) ∧
    execute { envCopyFail2 with detach_status := fun _ => 1 } params2 = .ok
      ({ parameters := params2, method := "Snapshot Mount", start_time := some 11,
         end_time := some 12,
         path_details := some
           { path := ["Volumes", "D2"], is_disk := true, disk_sectors := 8,
             disk_device := "disk2s2", disk_identifier := 77,
             disk_info := "i\nId: disk2s2\n" },
         hardware_info := "hw2", success := false, output_files := [],
         result := none }, none) :=
  ⟨rfl, rfl, rfl⟩

/- ===== Claim C3 ===== -/

/-- C3: evaluation at the failing input. The snapshot strategy sets
`success = true` after a zero-exit copy without ever computing hashes —
`report.result` is still `None` at that point, as the second conjunct shows
for exactly the report value reaching `_write_report` in this run — so the
run raises `AttributeError` instead of ever returning a report whose
`success = true` is backed by a `HashedFile` of the final artifact. -/
theorem success_set_without_hashing :
    execute envNoHash3 params3 = .error .attributeError ∧
    write_report
      { parameters := params3, method := "Snapshot Mount", start_time := some 21,
        end_time := some 22,
        path_details := some
          { path := ["Users", "alice"], is_disk := true, disk_sectors := 4,
            disk_device := "disk3s1", disk_identifier := 9,
            disk_info := "x\nY: disk3s1\n" },
        hardware_info := "hw3", success := true, output_files := ["/dest3"],
        result := none } = .error .attributeError :=
  ⟨rfl, rfl⟩
